import Mathlib

set_option maxRecDepth 8000

/-!
Shallow embedding of `src/appium_vision/keywords.py` (class `AppiumKeywords`)
from the repository `robot-appium-vision`, together with theorems settling the
frozen claims about its behaviour.

Modelling conventions:
- The Python code raises `Exception` / `AssertionError` / `RuntimeError` with
  distinguishing messages.  The error type `AVError` below groups those raises
  by the error taxonomy the specification uses (`ConfigNotFound`, `NotFound`,
  `MatchBelowThreshold`, ...); the message strings are taken verbatim from the
  source.
- Externally observable driver side effects (`webdriver.Remote`,
  `driver.execute_script("mobile: clickGesture", ...)`, `driver.quit()`,
  `"mobile: shell"`) are recorded in an event trace of type `List Event`;
  the outcomes of the external calls themselves (the driver returned by
  `webdriver.Remote`, the result of the shell bridge, whether `quit` raises)
  are supplied as explicit oracle parameters.
- Each dispatcher action in the source first runs
  `driver = self.start_appium_session(dut_name)`.  That common prefix is
  modelled once by `start_appium_session`; the per-action definitions model the
  body that follows a successful session acquisition.
-/

deriving instance DecidableEq for Except

/-- An Appium WebDriver instance is abstracted to an identity; the registry
claims are about which instance is returned, never about its internals. -/
abbrev Driver := Nat

/-- Errors raised by `keywords.py`, grouped by the specification's taxonomy.
The source raises plain `Exception` / `AssertionError` / `RuntimeError`
objects; each constructor carries the verbatim message built in the source. -/
inductive AVError where
  | configNotFound (msg : String)
  | notFound (msg : String)
  | matchBelowThreshold (msg : String)
  | driverError (msg : String)
  | runtimeError (msg : String)
  | attributeError (msg : String)
  | indexError
  deriving Repr, DecidableEq

/-- Observable side effects on the device / driver connection. -/
inductive Event where
  | connectAttempt (dut : String)
  | tap (x y : Int)
  | quit (d : Driver)
  | shell (cmd : String) (args : List String) (timeoutMs : Int)
  deriving Repr, DecidableEq

/-- Lookup in a Python dict modelled as an insertion-ordered association
list (first binding for the key wins; `dictSet` keeps keys unique). -/
def dictGet {α : Type} (l : List (String × α)) (k : String) : Option α :=
  (l.find? (fun p => p.1 == k)).map Prod.snd

/-- Python dict assignment `d[k] = v`: updates the binding in place when the
key exists, else appends the new binding at the end. -/
def dictSet {α : Type} (l : List (String × α)) (k : String) (v : α) :
    List (String × α) :=
  match l with
  | [] => [(k, v)]
  | (k2, v2) :: rest =>
    if k2 == k then (k, v) :: rest else (k2, v2) :: dictSet rest k v

/-- The mutable state of an `AppiumKeywords` instance that the claims touch:
`config` is the set of section names of `configurations.ini` (read once in
`__init__`; a section body is abstracted to its name since no claim inspects
capabilities), and `drivers` is the `self.drivers` dict mapping a logical DUT
name to its live driver. -/
structure AppState where
  config : List String
  drivers : List (String × Driver)
  deriving Repr, DecidableEq

/-- `get_device_id(self, dut_name)` (keywords.py lines 61-77): returns the
configuration section `DUT.<dut_name>`, raising
`Exception(f"DUT section '{section}' not found")` when absent. -/
def get_device_id (st : AppState) (dut_name : String) : Except AVError String :=
  if ("DUT." ++ dut_name) ∈ st.config then .ok ("DUT." ++ dut_name)
  else .error (.configNotFound ("DUT section \x27DUT." ++ dut_name ++ "\x27 not found"))

/-- `start_appium_session(self, dut_name)` (keywords.py lines 81-105): returns
the cached driver when `dut_name in self.drivers`; otherwise looks up the
configuration via `get_device_id`, calls `webdriver.Remote` (modelled by the
oracle `remote`, its error message wrapped as `driverError`), stores the new
driver in `self.drivers` and returns it together with the updated state and
the trace of connection attempts. -/
def start_appium_session (st : AppState) (dut_name : String)
    (remote : Except String Driver) :
    Except AVError Driver × AppState × List Event :=
  match dictGet st.drivers dut_name with
  | some d => (.ok d, st, [])
  | none =>
    match get_device_id st dut_name with
    | .error e => (.error e, st, [])
    | .ok _caps =>
      match remote with
      | .error m => (.error (.driverError m), st, [.connectAttempt dut_name])
      | .ok d =>
        (.ok d, { st with drivers := dictSet st.drivers dut_name d },
         [.connectAttempt dut_name])

/-- The `for driver in self.drivers.values(): driver.quit()` loop of
`stop_appium_session` (keywords.py lines 113-114): quits the cached drivers in
insertion order; an exception from one `quit` (oracle `quit` returning
`.error`) aborts the loop.  Every attempted `quit` is traced, including the
failing one. -/
def quitAll (quit : Driver → Except String Unit) :
    List (String × Driver) → Except AVError Unit × List Event
  | [] => (.ok (), [])
  | (_, d) :: rest =>
    match quit d with
    | .error m => (.error (.driverError m), [.quit d])
    | .ok _ =>
      let r := quitAll quit rest
      (r.1, .quit d :: r.2)

/-- `stop_appium_session(self)` (keywords.py lines 109-115): quits every cached
driver, then `self.drivers.clear()`.  The clear is only reached when every
`quit` returned; a raising `quit` propagates and leaves `self.drivers`
untouched. -/
def stop_appium_session (st : AppState) (quit : Driver → Except String Unit) :
    Except AVError Unit × AppState × List Event :=
  match quitAll quit st.drivers with
  | (.ok _, evs) => (.ok (), { st with drivers := [] }, evs)
  | (.error e, evs) => (.error e, st, evs)

/-- Python `str.strip()` with no argument: removes leading and trailing
whitespace characters. -/
def pyStrip (s : String) : String :=
  String.mk (((s.data.dropWhile Char.isWhitespace).reverse.dropWhile
    Char.isWhitespace).reverse)

/-- Accumulator pass for `pySplit`: `cur` holds the current token reversed. -/
def pySplitAux : List Char → List Char → List (List Char)
  | [], cur => if cur.isEmpty then [] else [cur.reverse]
  | c :: cs, cur =>
    if c.isWhitespace then
      if cur.isEmpty then pySplitAux cs [] else cur.reverse :: pySplitAux cs []
    else pySplitAux cs (c :: cur)

/-- Python `str.split()` with no argument: splits on runs of whitespace and
never yields empty fields. -/
def pySplit (s : String) : List String :=
  (pySplitAux s.data []).map String.mk

/-- Python `int(...)` applied to the exact value of a float expression:
truncation toward zero. -/
def pyTrunc (q : ℚ) : Int :=
  if 0 ≤ q then (q : Rat).floor else (q : Rat).ceil

/-- One entry of the pytesseract `image_to_data` dictionary that `tap_by_text`
reads: the parallel arrays `text`, `left`, `top`, `width`, `height` at a
common index. -/
structure OcrEntry where
  text : String
  left : Int
  top : Int
  width : Int
  height : Int
  deriving Repr, DecidableEq

/-- The OCR scan loop of `tap_by_text(self, expected_text, dut_name)`
(keywords.py lines 183-219), after the screenshot and OCR produced the entry
list: takes the first index whose `text.strip()` equals `expected_text`, taps
`(int(x + w / 2), int(y + h / 2))` via `mobile: clickGesture` and returns
`True`; falls through to
`AssertionError(f"Text '{expected_text}' not found via OCR")`. -/
def tap_by_text (expected_text : String) :
    List OcrEntry → Except AVError Bool × List Event
  | [] =>
    (.error (.notFound ("Text \x27" ++ expected_text ++ "\x27 not found via OCR")),
     [])
  | e :: rest =>
    if pyStrip e.text = expected_text then
      (.ok true,
       [.tap (pyTrunc ((e.left : ℚ) + (e.width : ℚ) / 2))
             (pyTrunc ((e.top : ℚ) + (e.height : ℚ) / 2))])
    else tap_by_text expected_text rest

/-- An `{"x": ..., "y": ...}` object of a coordinate JSON file, after the
source's `int(...)` conversions (the claims concern integer-valued files). -/
structure Coord where
  x : Int
  y : Int
  deriving Repr, DecidableEq

/-- `tap_by_coordinates(self, json_name, key_name, dut_name)` (keywords.py
lines 150-179) after session acquisition.  `fileData` is `none` when
`os.path.isfile(json_file)` is false, else the parsed JSON object;
`json_file` is the resolved path used in the missing-file message.  A present
key taps `mobile: clickGesture` at exactly the stored coordinates. -/
def tap_by_coordinates (json_file : String)
    (fileData : Option (List (String × Coord))) (key_name : String)
    (dut_name : String) : Except AVError String × List Event :=
  match fileData with
  | none => (.error (.configNotFound ("JSON file not found: " ++ json_file)), [])
  | some data =>
    match dictGet data key_name with
    | none =>
      (.error (.configNotFound ("Key \x27" ++ key_name ++ "\x27 not found")), [])
    | some c =>
      (.ok ("Tapped at (" ++ toString c.x ++ "," ++ toString c.y ++ ") on "
            ++ dut_name),
       [.tap c.x c.y])

/-- Round to the nearest integer, ties to even: the rounding CPython's
`float.__format__` applies to the scaled value for a fixed-point format. -/
def roundHalfEven (q : ℚ) : Int :=
  let fl := (q : Rat).floor
  let fr := q - (fl : ℚ)
  if fr < 1/2 then fl
  else if 1/2 < fr then fl + 1
  else if fl % 2 = 0 then fl else fl + 1

/-- Zero-pad a value below 1000 to three digits. -/
def pad3 (n : Nat) : String :=
  if n < 10 then "00" ++ toString n
  else if n < 100 then "0" ++ toString n
  else toString n

/-- Python `f"{v:.3f}"` on the exact value `v`: fixed-point with three
decimals, rounding half to even. -/
def formatFixed3 (q : ℚ) : String :=
  if 0 ≤ q then
    let m := (roundHalfEven (q * 1000)).toNat
    toString (m / 1000) ++ "." ++ pad3 (m % 1000)
  else
    let m := (roundHalfEven (-q * 1000)).toNat
    "-" ++ toString (m / 1000) ++ "." ++ pad3 (m % 1000)

/-- The threshold decision of `verify_image_element(self, image_name,
dut_name, threshold=0.9)` (keywords.py lines 223-254): `max_val` is the
maximum of the `cv2.TM_CCOEFF_NORMED` template-match response
(`cv2.minMaxLoc`); the keyword returns `True` when `max_val >= threshold` and
otherwise raises `AssertionError(f"Image match failed: score={max_val:.3f}")`. -/
def verify_image_element (max_val threshold : ℚ) : Except AVError Bool :=
  if threshold ≤ max_val then .ok true
  else .error (.matchBelowThreshold ("Image match failed: score="
    ++ formatFixed3 max_val))

/-- `click_by_image(self, image_name, dut_name, threshold=0.8)` (keywords.py
lines 258-294) after template matching: `max_val` / `max_loc` come from
`cv2.minMaxLoc`, `refH`/`refW` are `ref.shape[:2]` (height first).  A score
below the threshold raises `AssertionError("Image not found")`; otherwise the
tap point is `(max_loc[0] + w // 2, max_loc[1] + h // 2)` with Python floor
division on the non-negative pixel sizes. -/
def click_by_image (max_val threshold : ℚ) (max_loc : Int × Int)
    (refH refW : Nat) : Except AVError String × List Event :=
  if max_val < threshold then (.error (.notFound "Image not found"), [])
  else
    let x : Int := max_loc.1 + (refW / 2 : Nat)
    let y : Int := max_loc.2 + (refH / 2 : Nat)
    (.ok ("Clicked image at (" ++ toString x ++ "," ++ toString y ++ ")"),
     [.tap x y])

/-- The value the driver's shell bridge returns to `run_command`: either a
dict (whose optional `stdout` field is read with default `""`) or a plain
string. -/
inductive ShellResult where
  | dict (stdout : Option String)
  | str (s : String)
  deriving Repr, DecidableEq

/-- `run_command(self, command, dut_name, timeout_ms=5000)` (keywords.py lines
298-320) after session acquisition: `parts = command.split()`; indexing
`parts[0]` on an empty list raises `IndexError` before any driver call;
otherwise `mobile: shell` is invoked with `parts[0]`, `parts[1:]` and the
timeout (oracle `shellExec` supplies the bridge's return value), and the
result is `result.get("stdout", "").strip()` for a dict, else
`result.strip()`. -/
def run_command (command : String) (timeout_ms : Int)
    (shellExec : String → List String → Int → ShellResult) :
    Except AVError String × List Event :=
  match pySplit command with
  | [] => (.error .indexError, [])
  | c :: args =>
    let out :=
      match shellExec c args timeout_ms with
      | .dict stdout => pyStrip (stdout.getD "")
      | .str s => pyStrip s
    (.ok out, [.shell c args timeout_ms])

/-- The `required_packages` table of `_check_runtime_dependencies`
(keywords.py lines 476-482): pip name paired with import name. -/
def required_packages : List (String × String) :=
  [("robotframework", "robot"),
   ("appium-python-client", "appium"),
   ("selenium", "selenium"),
   ("opencv-python", "cv2"),
   ("pytesseract", "pytesseract")]

/-- The required-package loop of `_check_runtime_dependencies` (keywords.py
lines 484-489): probes `importlib.util.find_spec` (oracle `findSpec`) for
each import name in table order, raising `RuntimeError` at the first missing
one.  Returns the check outcome and the list of import names probed.  The
subsequent `adb` / `tesseract` probes only log warnings and raise nothing. -/
def check_required_packages (findSpec : String → Bool) :
    List (String × String) → Except AVError Unit × List String
  | [] => (.ok (), [])
  | (pkg, imp) :: rest =>
    if findSpec imp then
      let r := check_required_packages findSpec rest
      (r.1, imp :: r.2)
    else
      (.error (.runtimeError ("❌ Required dependency \x27" ++ pkg
        ++ "\x27 is not installed.\nInstall it using: pip install " ++ pkg)),
       [imp])

/-- The module-level function `_check_runtime_dependencies(self)` (keywords.py
lines 464-520), restricted to its raising part: the required-package loop over
`required_packages`. -/
def check_runtime_dependencies (findSpec : String → Bool) :
    Except AVError Unit × List String :=
  check_required_packages findSpec required_packages

/-- The attribute names the class statement of `AppiumKeywords` defines
(keywords.py lines 18-461).  `_check_runtime_dependencies` is NOT among them:
its `def` at line 464 sits at column 0, outside the class body. -/
def appiumKeywordsAttrs : List String :=
  ["__init__", "get_device_id", "start_appium_session", "stop_appium_session",
   "verify_text_appium_full", "tap_by_coordinates", "tap_by_text",
   "verify_image_element", "click_by_image", "run_command", "press_key",
   "swipe_left_right", "scroll_top_bottom", "start_screen_recording",
   "stop_screen_recording", "Test_Video"]

/-- Outcome of `AppiumKeywords.__init__`: whether construction completed,
which import names the dependency check probed, and whether the
`⚠️ Dependency check skipped during initialization` warning was logged. -/
structure InitTrace where
  succeeded : Bool
  probed : List String
  depWarning : Bool
  deriving Repr, DecidableEq

/-- The dependency-validation tail of `AppiumKeywords.__init__` (keywords.py
lines 51-57): `self._check_runtime_dependencies()` resolves the attribute on
the instance/class; since the class does not define it, the call raises
`AttributeError`, and the surrounding `except Exception` logs a warning and
continues, so `__init__` always completes. -/
def appiumKeywords_init (findSpec : String → Bool) : InitTrace :=
  if "_check_runtime_dependencies" ∈ appiumKeywordsAttrs then
    match check_runtime_dependencies findSpec with
    | (.ok _, probed) => ⟨true, probed, false⟩
    | (.error _, probed) => ⟨true, probed, true⟩
  else ⟨true, [], true⟩

/-- Every DUT name cached in `self.drivers` has a matching `DUT.<name>`
configuration section.  This holds in every reachable state: `__init__`
starts with an empty dict, entries are only added by `start_appium_session`
after `get_device_id` succeeded, and the configuration is read once and never
changed. -/
def cacheConsistent (st : AppState) : Prop :=
  ∀ p ∈ st.drivers, ("DUT." ++ p.1) ∈ st.config

theorem dictGet_dictSet_self {α : Type} (l : List (String × α)) (k : String)
    (v : α) : dictGet (dictSet l k v) k = some v := by
  induction l with
  | nil => simp [dictGet, dictSet, List.find?]
  | cons p rest ih =>
    obtain ⟨k2, v2⟩ := p
    cases hk : k2 == k with
    | true => simp [dictGet, dictSet, hk, List.find?]
    | false => simpa [dictGet, dictSet, hk, List.find?] using ih

theorem dictGet_eq_some_mem {α : Type} {l : List (String × α)} {k : String}
    {v : α} (h : dictGet l k = some v) : (k, v) ∈ l := by
  unfold dictGet at h
  cases hf : l.find? (fun q => q.1 == k) with
  | none => rw [hf] at h; simp at h
  | some q =>
    rw [hf] at h
    have hmem := List.mem_of_find?_eq_some hf
    have hkey := List.find?_some hf
    have hk : q.1 = k := by simpa using hkey
    have hv : q.2 = v := by simpa using h
    have : q = (k, v) := Prod.ext hk hv
    exact this ▸ hmem

theorem mem_dictSet {α : Type} {l : List (String × α)} {k : String} {v : α}
    {p : String × α} (h : p ∈ dictSet l k v) : p = (k, v) ∨ p ∈ l := by
  induction l with
  | nil => simpa [dictSet] using h
  | cons q rest ih =>
    obtain ⟨k2, v2⟩ := q
    cases hk : k2 == k with
    | true =>
      simp only [dictSet, hk, if_pos] at h
      rcases List.mem_cons.mp h with h1 | h1
      · exact Or.inl h1
      · exact Or.inr (List.mem_cons_of_mem _ h1)
    | false =>
      simp only [dictSet, hk, Bool.false_eq_true, if_false] at h
      rcases List.mem_cons.mp h with h1 | h1
      · exact Or.inr (h1 ▸ List.mem_cons_self _ _)
      · rcases ih h1 with h2 | h2
        · exact Or.inl h2
        · exact Or.inr (List.mem_cons_of_mem _ h2)

/-- `start_appium_session` preserves the registry invariant: a driver is
cached only after its configuration section was looked up successfully. -/
theorem cacheConsistent_start (st : AppState) (dut_name : String)
    (remote : Except String Driver) (hinv : cacheConsistent st) :
    cacheConsistent (start_appium_session st dut_name remote).2.1 := by
  unfold start_appium_session
  cases hfind : dictGet st.drivers dut_name with
  | some d => exact hinv
  | none =>
    cases hget : get_device_id st dut_name with
    | error e => exact hinv
    | ok caps =>
      cases remote with
      | error m => exact hinv
      | ok d =>
        intro p hp
        rcases mem_dictSet hp with h1 | h1
        · subst h1
          unfold get_device_id at hget
          by_cases hc : ("DUT." ++ dut_name) ∈ st.config
          · exact hc
          · simp [hc] at hget
        · exact hinv p h1

/-- C1: a logical DUT name maps to at most one live session: after any
successful `start_appium_session` call returned driver `d` and state `st2`, a
second call for the same name returns the identical cached instance `d`,
leaves the registry unchanged and attempts no driver connection (empty event
trace), whatever the connection oracle would do. -/
theorem start_appium_session_reuses_cached (st : AppState) (dut_name : String)
    (r1 : Except String Driver) (d : Driver) (st2 : AppState)
    (evs : List Event)
    (h : start_appium_session st dut_name r1 = (.ok d, st2, evs))
    (r2 : Except String Driver) :
    start_appium_session st2 dut_name r2 = (.ok d, st2, []) := by
  unfold start_appium_session at h ⊢
  cases hfind : dictGet st.drivers dut_name with
  | some d0 =>
    rw [hfind] at h
    simp only [Prod.mk.injEq, Except.ok.injEq] at h
    obtain ⟨rfl, rfl, rfl⟩ := h
    rw [hfind]
  | none =>
    rw [hfind] at h
    cases hget : get_device_id st dut_name with
    | error e => rw [hget] at h; simp at h
    | ok caps =>
      rw [hget] at h
      cases r1 with
      | error m => simp at h
      | ok d1 =>
        simp only [Prod.mk.injEq, Except.ok.injEq] at h
        obtain ⟨rfl, rfl, rfl⟩ := h
        rw [show dictGet (AppState.mk st.config
          (dictSet st.drivers dut_name d1)).drivers dut_name = some d1 from
          dictGet_dictSet_self st.drivers dut_name d1]

theorem start_appium_session_reuses_cached_witness :
    start_appium_session ⟨["DUT.Phone"], [("Phone", 7)]⟩ "Phone" (.ok 99) =
      (.ok 7, ⟨["DUT.Phone"], [("Phone", 7)]⟩, []) :=
  start_appium_session_reuses_cached ⟨["DUT.Phone"], []⟩ "Phone" (.ok 7) 7
    ⟨["DUT.Phone"], [("Phone", 7)]⟩ [.connectAttempt "Phone"] (by decide)
    (.ok 99)

/-- C4: for a DUT name with no `DUT.<name>` configuration section (in any
reachable registry state, where cached names always have sections), the
session request fails with the `ConfigNotFound` error raised by
`get_device_id` — the configuration lookup the non-cached path runs first —
and the event trace is empty: no driver connection is attempted. -/
theorem start_appium_session_missing_section (st : AppState)
    (dut_name : String) (remote : Except String Driver)
    (hinv : cacheConsistent st)
    (hcfg : ("DUT." ++ dut_name) ∉ st.config) :
    get_device_id st dut_name =
      .error (.configNotFound
        ("DUT section \x27DUT." ++ dut_name ++ "\x27 not found")) ∧
    start_appium_session st dut_name remote =
      (.error (.configNotFound
        ("DUT section \x27DUT." ++ dut_name ++ "\x27 not found")), st, []) := by
  have hget : get_device_id st dut_name =
      .error (.configNotFound
        ("DUT section \x27DUT." ++ dut_name ++ "\x27 not found")) := by
    simp [get_device_id, hcfg]
  refine ⟨hget, ?_⟩
  have hfind : dictGet st.drivers dut_name = none := by
    cases hd : dictGet st.drivers dut_name with
    | none => rfl
    | some d => exact absurd (hinv _ (dictGet_eq_some_mem hd)) hcfg
  unfold start_appium_session
  rw [hfind, hget]

theorem start_appium_session_missing_section_witness :
    get_device_id ⟨["DUT.Main"], []⟩ "Phone" =
      .error (.configNotFound "DUT section \x27DUT.Phone\x27 not found") ∧
    start_appium_session ⟨["DUT.Main"], []⟩ "Phone" (.ok 5) =
      (.error (.configNotFound "DUT section \x27DUT.Phone\x27 not found"),
       ⟨["DUT.Main"], []⟩, []) := by
  have h := start_appium_session_missing_section ⟨["DUT.Main"], []⟩ "Phone"
    (.ok 5) (by intro p hp; simp at hp) (by decide)
  exact ⟨h.1.trans (by decide), h.2.trans (by decide)⟩

/-- C10: when the driver construction raises (connection oracle `.error m`),
`start_appium_session` propagates the failure with the registry state exactly
as before — the name is not added to the cache — and a subsequent request for
the same name attempts creation again (it emits a fresh connection attempt
and caches the new driver) instead of returning a broken cached session. -/
theorem start_appium_session_failed_create_keeps_cache (st : AppState)
    (dut_name m : String) (hfind : dictGet st.drivers dut_name = none)
    (hcfg : ("DUT." ++ dut_name) ∈ st.config) :
    start_appium_session st dut_name (.error m) =
      (.error (.driverError m), st, [.connectAttempt dut_name]) ∧
    ∀ d : Driver, start_appium_session st dut_name (.ok d) =
      (.ok d, { st with drivers := dictSet st.drivers dut_name d },
       [.connectAttempt dut_name]) := by
  have hget : get_device_id st dut_name = .ok ("DUT." ++ dut_name) := by
    simp [get_device_id, hcfg]
  constructor
  · unfold start_appium_session
    rw [hfind, hget]
  · intro d
    unfold start_appium_session
    rw [hfind, hget]

theorem start_appium_session_failed_create_keeps_cache_witness :
    start_appium_session ⟨["DUT.Phone"], []⟩ "Phone" (.error "conn refused") =
      (.error (.driverError "conn refused"), ⟨["DUT.Phone"], []⟩,
       [.connectAttempt "Phone"]) ∧
    start_appium_session ⟨["DUT.Phone"], []⟩ "Phone" (.ok 7) =
      (.ok 7, ⟨["DUT.Phone"], [("Phone", 7)]⟩, [.connectAttempt "Phone"]) := by
  have h := start_appium_session_failed_create_keeps_cache ⟨["DUT.Phone"], []⟩
    "Phone" "conn refused" (by decide) (by decide)
  exact ⟨h.1, (h.2 7).trans (by decide)⟩

theorem quitAll_all_ok (quit : Driver → Except String Unit)
    (l : List (String × Driver)) (h : ∀ p ∈ l, quit p.2 = .ok ()) :
    quitAll quit l = (.ok (), l.map fun p => Event.quit p.2) := by
  induction l with
  | nil => rfl
  | cons p rest ih =>
    obtain ⟨k, d⟩ := p
    have hp : quit d = .ok () := h (k, d) (List.mem_cons_self _ _)
    have ihh := ih (fun q hq => h q (List.mem_cons_of_mem _ hq))
    simp [quitAll, hp, ihh]

theorem quitAll_aborts (quit : Driver → Except String Unit)
    (pre : List (String × Driver)) (k : String) (dk : Driver)
    (post : List (String × Driver)) (m : String)
    (hpre : ∀ p ∈ pre, quit p.2 = .ok ()) (hk : quit dk = .error m) :
    quitAll quit (pre ++ (k, dk) :: post) =
      (.error (.driverError m),
       (pre.map fun p => Event.quit p.2) ++ [.quit dk]) := by
  induction pre with
  | nil => simp [quitAll, hk]
  | cons p rest ih =>
    obtain ⟨k2, d2⟩ := p
    have hp : quit d2 = .ok () := hpre (k2, d2) (List.mem_cons_self _ _)
    have ihh := ih (fun q hq => hpre q (List.mem_cons_of_mem _ hq))
    simp [quitAll, hp, ihh]

/-- C6: `stop_appium_session` instructs every cached session to terminate (in
cache order) and then clears the cache — when every `quit` succeeds, the trace
quits exactly the cached drivers and `drivers` ends empty.  Failures are not
isolated: if the `quit` of one cached driver raises, the drivers cached after
it are never quit and the exception propagates; in that error case the
`clear()` is not reached, so the cache is unchanged — the clear happens only
after every termination succeeds. -/
theorem stop_appium_session_releases_all (st : AppState)
    (quit : Driver → Except String Unit) :
    ((∀ p ∈ st.drivers, quit p.2 = .ok ()) →
      stop_appium_session st quit =
        (.ok (), { st with drivers := [] },
         st.drivers.map fun p => Event.quit p.2)) ∧
    (∀ (pre : List (String × Driver)) (k : String) (dk : Driver)
       (post : List (String × Driver)) (m : String),
      st.drivers = pre ++ (k, dk) :: post →
      (∀ p ∈ pre, quit p.2 = .ok ()) → quit dk = .error m →
      stop_appium_session st quit =
        (.error (.driverError m), st,
         (pre.map fun p => Event.quit p.2) ++ [.quit dk])) := by
  constructor
  · intro h
    unfold stop_appium_session
    rw [quitAll_all_ok quit st.drivers h]
  · intro pre k dk post m hdr hpre hk
    unfold stop_appium_session
    rw [hdr, quitAll_aborts quit pre k dk post m hpre hk]

theorem stop_appium_session_releases_all_witness :
    stop_appium_session ⟨[], [("A", 1), ("B", 2)]⟩ (fun _ => .ok ()) =
      (.ok (), ⟨[], []⟩, [.quit 1, .quit 2]) ∧
    stop_appium_session ⟨[], [("A", 1), ("B", 2), ("C", 3)]⟩
        (fun d => if d == 2 then .error "quit failed" else .ok ()) =
      (.error (.driverError "quit failed"),
       ⟨[], [("A", 1), ("B", 2), ("C", 3)]⟩, [.quit 1, .quit 2]) := by
  constructor
  · have h := (stop_appium_session_releases_all ⟨[], [("A", 1), ("B", 2)]⟩
      (fun _ => .ok ())).1 (by intro p hp; rfl)
    exact h.trans (by decide)
  · have h := (stop_appium_session_releases_all
      ⟨[], [("A", 1), ("B", 2), ("C", 3)]⟩
      (fun d => if d == 2 then .error "quit failed" else .ok ())).2
      [("A", 1)] "B" 2 [("C", 3)] "quit failed" (by decide) (by decide)
      (by decide)
    exact h.trans (by decide)

/-- C2: `verify_image_element` succeeds (returns `True`) iff the best
template-match score reaches the caller-supplied threshold — at the boundary
`s == t` it succeeds — and a score below the threshold raises
`MatchBelowThreshold` reporting the score formatted to three decimals; in
particular score 0.85 against threshold 0.9 reports 0.850. -/
theorem verify_image_element_iff_score_ge (s t : ℚ) :
    (verify_image_element s t = .ok true ↔ t ≤ s) ∧
    (verify_image_element s s = .ok true) ∧
    (s < t → verify_image_element s t =
      .error (.matchBelowThreshold
        ("Image match failed: score=" ++ formatFixed3 s))) ∧
    verify_image_element (85/100) (9/10) =
      .error (.matchBelowThreshold "Image match failed: score=0.850") := by
  refine ⟨?_, ?_, ?_, by with_unfolding_all decide⟩
  · unfold verify_image_element
    by_cases h : t ≤ s
    · simp [h]
    · simp [h]
  · simp [verify_image_element]
  · intro h
    have hn : ¬ t ≤ s := not_le.mpr h
    simp [verify_image_element, hn]

theorem verify_image_element_iff_score_ge_witness :
    verify_image_element (1/2) (9/10) =
      .error (.matchBelowThreshold "Image match failed: score=0.500") := by
  have h := (verify_image_element_iff_score_ge (1/2) (9/10)).2.2.1
    (by with_unfolding_all decide)
  exact h.trans (by with_unfolding_all decide)

/-- C8: when the best match score meets the threshold, `click_by_image` taps
exactly at the top-left corner of the best match offset by half the reference
image width horizontally and half its height vertically, both halves taken
with integer (floor) division of the pixel sizes. -/
theorem click_by_image_taps_center (max_val threshold : ℚ) (locX locY : Int)
    (refH refW : Nat) (h : threshold ≤ max_val) :
    click_by_image max_val threshold (locX, locY) refH refW =
      (.ok ("Clicked image at (" ++ toString (locX + (refW / 2 : Nat)) ++ ","
            ++ toString (locY + (refH / 2 : Nat)) ++ ")"),
       [.tap (locX + (refW / 2 : Nat)) (locY + (refH / 2 : Nat))]) := by
  simp [click_by_image, not_lt.mpr h]

theorem click_by_image_taps_center_witness :
    click_by_image (9/10) (8/10) (5, 7) 9 4 =
      (.ok "Clicked image at (7,11)", [.tap 7 11]) := by
  have h := click_by_image_taps_center (9/10) (8/10) 5 7 9 4
    (by with_unfolding_all decide)
  exact h.trans (by decide)

/-- C3: `tap_by_text` selects the first OCR entry, in result order, whose
whitespace-trimmed text exactly equals the target: when no entry matches it
raises `NotFound`, and when the first match is entry `e` it taps the center
of that entry's bounding box, `(int(left + width / 2), int(top + height / 2))`. -/
theorem tap_by_text_first_exact_match (expected_text : String) :
    (∀ ocr : List OcrEntry, (∀ e ∈ ocr, pyStrip e.text ≠ expected_text) →
      tap_by_text expected_text ocr =
        (.error (.notFound
          ("Text \x27" ++ expected_text ++ "\x27 not found via OCR")), [])) ∧
    (∀ (pre : List OcrEntry) (e : OcrEntry) (post : List OcrEntry),
      (∀ e2 ∈ pre, pyStrip e2.text ≠ expected_text) →
      pyStrip e.text = expected_text →
      tap_by_text expected_text (pre ++ e :: post) =
        (.ok true,
         [.tap (pyTrunc ((e.left : ℚ) + (e.width : ℚ) / 2))
               (pyTrunc ((e.top : ℚ) + (e.height : ℚ) / 2))])) := by
  constructor
  · intro ocr
    induction ocr with
    | nil => intro _; rfl
    | cons a rest ih =>
      intro h
      have ha : pyStrip a.text ≠ expected_text := h a (List.mem_cons_self _ _)
      have ihh := ih (fun e he => h e (List.mem_cons_of_mem _ he))
      simp [tap_by_text, ha, ihh]
  · intro pre e post
    induction pre with
    | nil =>
      intro _ he
      simp [tap_by_text, he]
    | cons a rest ih =>
      intro hpre he
      have ha : pyStrip a.text ≠ expected_text :=
        hpre a (List.mem_cons_self _ _)
      have ihh := ih (fun e2 h2 => hpre e2 (List.mem_cons_of_mem _ h2)) he
      simp [tap_by_text, ha, ihh]

theorem tap_by_text_first_exact_match_witness :
    tap_by_text "OK"
      [⟨" NO ", 0, 0, 10, 10⟩, ⟨" OK ", 4, 6, 10, 8⟩, ⟨"OK", 100, 100, 2, 2⟩] =
      (.ok true, [.tap 9 10]) := by
  have h := (tap_by_text_first_exact_match "OK").2
    [⟨" NO ", 0, 0, 10, 10⟩] ⟨" OK ", 4, 6, 10, 8⟩ [⟨"OK", 100, 100, 2, 2⟩]
    (by decide) (by decide)
  exact h.trans (by with_unfolding_all decide)

/-- C5: `tap_by_coordinates` raises `ConfigNotFound` when the coordinate file
is missing or the key is absent from it — with no tap issued in either case —
and when file and key are present with integer values it taps exactly the
stored coordinates. -/
theorem tap_by_coordinates_exact_or_missing (json_file key_name dut_name :
    String) (data : List (String × Coord)) :
    (tap_by_coordinates json_file none key_name dut_name =
      (.error (.configNotFound ("JSON file not found: " ++ json_file)), [])) ∧
    (dictGet data key_name = none →
      tap_by_coordinates json_file (some data) key_name dut_name =
        (.error (.configNotFound
          ("Key \x27" ++ key_name ++ "\x27 not found")), [])) ∧
    (∀ c : Coord, dictGet data key_name = some c →
      tap_by_coordinates json_file (some data) key_name dut_name =
        (.ok ("Tapped at (" ++ toString c.x ++ "," ++ toString c.y ++ ") on "
              ++ dut_name),
         [.tap c.x c.y])) := by
  refine ⟨rfl, ?_, ?_⟩
  · intro h
    simp [tap_by_coordinates, h]
  · intro c h
    simp [tap_by_coordinates, h]

theorem tap_by_coordinates_exact_or_missing_witness :
    tap_by_coordinates "Login.json" (some [("login_button", ⟨100, 200⟩)])
      "login_button" "Phone" =
      (.ok "Tapped at (100,200) on Phone", [.tap 100 200]) := by
  have h := (tap_by_coordinates_exact_or_missing "Login.json" "login_button"
    "Phone" [("login_button", ⟨100, 200⟩)]).2.2 ⟨100, 200⟩ (by decide)
  exact h.trans (by decide)

/-- C9 (counterexample): the whitespace-only command `" "` is a non-empty
command string, yet `run_command` does not send any token to the shell bridge
and does not return trimmed stdout: `" ".split()` is empty, so indexing
`parts[0]` raises `IndexError` before the driver is called (empty event
trace). -/
theorem run_command_whitespace_only_counterexample :
    (" " ≠ "") ∧
    run_command " " 5000 (fun _ _ _ => .str "out") =
      (.error .indexError, []) :=
  ⟨by decide, by decide⟩

/-- C9 (amended): for every command string whose whitespace split yields at
least one token, `run_command` sends the first token as the command and the
remaining tokens as the argument list to the driver's `mobile: shell` bridge
with the given timeout, and returns the stdout with surrounding whitespace
trimmed — the `stdout` field (default `""`) when the bridge returns a dict,
else the trimmed returned string. -/
theorem run_command_first_token_rest_args (command : String)
    (timeout_ms : Int)
    (shellExec : String → List String → Int → ShellResult)
    (c : String) (args : List String) (h : pySplit command = c :: args) :
    run_command command timeout_ms shellExec =
      (.ok (match shellExec c args timeout_ms with
            | .dict stdout => pyStrip (stdout.getD "")
            | .str s => pyStrip s),
       [.shell c args timeout_ms]) := by
  unfold run_command
  rw [h]

theorem run_command_first_token_rest_args_witness :
    run_command "ls -l /tmp" 5000 (fun _ _ _ => .dict (some "  total 0\n")) =
      (.ok "total 0", [.shell "ls" ["-l", "/tmp"] 5000]) := by
  have h := run_command_first_token_rest_args "ls -l /tmp" 5000
    (fun _ _ _ => .dict (some "  total 0\n")) "ls" ["-l", "/tmp"] (by decide)
  exact h.trans (by decide)

/-- C7: the dependency check never actually runs during construction.  The
`def _check_runtime_dependencies(self)` at keywords.py line 464 sits at column
zero — module level, outside the `AppiumKeywords` class body — so
`self._check_runtime_dependencies()` in `__init__` raises `AttributeError`,
which the surrounding `except Exception` converts to a logged warning.
Whatever the import environment, construction succeeds with zero import
probes and the warning logged — even with `cv2` missing, when the module-level
check function itself would have raised `RuntimeError` had it been called. -/
theorem appiumKeywords_init_never_runs_check :
    appiumKeywords_init (fun _ => true) = ⟨true, [], true⟩ ∧
    appiumKeywords_init (fun imp => imp != "cv2") = ⟨true, [], true⟩ ∧
    (check_runtime_dependencies (fun imp => imp != "cv2")).1 =
      .error (.runtimeError
        ("❌ Required dependency \x27opencv-python\x27 is not installed.\n"
         ++ "Install it using: pip install opencv-python")) ∧
    (check_runtime_dependencies (fun _ => true)).2 =
      ["robot", "appium", "selenium", "cv2", "pytesseract"] :=
  ⟨by decide, by decide, by decide, by decide⟩
